import Mathlib

/-!
Shallow embedding of the BeagleBone configuration dashboard client
(`static/... .js`, the single script of the repository) and proofs about it.

Modelling conventions:
* JavaScript numbers are modelled as exact rationals (`ℚ`); double-precision
  rounding is idealised away.  `Math.floor` is `⌊·⌋`, `Math.round` is
  "floor of x + 1/2" (JS rounds ties toward +∞), and `Number.toFixed`
  rounds ties away from zero on the magnitude, as ECMA-262 specifies.
* A JavaScript value that may fail a `typeof x === 'number'` test is an
  `Option ℚ`: `none` stands for `undefined`, `null`, or any non-number.
* JSON object fields that the code tests with `x != null` are `Option`
  fields: `none` means "absent or null".
* DOM writes are modelled as fields of explicit display-state records.
-/

/-! ### Decimal string rendering (the output of JS number-to-string coercion) -/

/-- Character for a decimal digit `n < 10`. -/
def digitChar (n : Nat) : Char := Char.ofNat (48 + n)

/-- Accumulator-based base-10 digit expansion; `fuel ≥` number of digits. -/
def natDigitsAux : Nat → Nat → List Char → List Char
  | 0, _, acc => acc
  | fuel+1, n, acc =>
    if n < 10 then digitChar n :: acc
    else natDigitsAux fuel (n / 10) (digitChar (n % 10) :: acc)

/-- Decimal rendering of a natural number, as JS renders integers. -/
def natStr (n : Nat) : String := ⟨natDigitsAux (n+1) n []⟩

/-- Decimal rendering of an integer, as JS renders integers. -/
def intStr (i : Int) : String := if i < 0 then "-" ++ natStr i.natAbs else natStr i.toNat

/-- JS `String(x).padStart(2,'0')`. -/
def pad2 (s : String) : String := if s.length < 2 then "0" ++ s else s

/-- JS `Math.round`: round half toward positive infinity. -/
def jsRound (q : ℚ) : ℤ := ⌊q + 1/2⌋

/-- JS `Number.prototype.toFixed(2)`: two decimal places, ties on the
magnitude rounded up (ECMA-262 "pick the larger n"). -/
def toFixed2 (q : ℚ) : String :=
  let sign := if q < 0 then "-" else ""
  let n : ℤ := ⌊|q| * 100 + 1/2⌋
  sign ++ intStr (n / 100) ++ "." ++ pad2 (intStr (n % 100))

/-- JS `Number.prototype.toFixed(1)`: one decimal place. -/
def toFixed1 (q : ℚ) : String :=
  let sign := if q < 0 then "-" else ""
  let n : ℤ := ⌊|q| * 10 + 1/2⌋
  sign ++ intStr (n / 10) ++ "." ++ intStr (n % 10)

/-! ### JS string truthiness and `||` on optional strings -/

/-- Truthiness of a possibly-absent JS string: only a present, non-empty
string is truthy. -/
def jsTruthyStr (o : Option String) : Bool :=
  match o with
  | some s => !(s == "")
  | none => false

/-- JS `a || b` on two possibly-absent strings. -/
def jsOrStr (a b : Option String) : Option String := if jsTruthyStr a then a else b

/-- JS `a || d` where `d` is a (truthy) string literal default. -/
def jsStrOrDefault (o : Option String) (d : String) : String :=
  match o with
  | some s => if s == "" then d else s
  | none => d

/-! ### JS `String.prototype.replace` with a plain (non-empty) string pattern -/

/-- Replace the first occurrence of `pat` in a character list (JS
`String.replace` with a string pattern replaces the leftmost match only).
For the empty-pattern corner case JS would insert at the start; the source
only ever uses the non-empty pattern `"— "`. -/
def listReplaceFirst (pat rep : List Char) : List Char → List Char
  | [] => []
  | c :: rest =>
    if pat.isPrefixOf (c :: rest) then rep ++ (c :: rest).drop pat.length
    else c :: listReplaceFirst pat rep rest

/-- JS `s.replace(pat, rep)` for a string pattern. -/
def jsReplaceFirst (s pat rep : String) : String := ⟨listReplaceFirst pat.data rep.data s.data⟩

/-! ### Formatting helpers from the source (`fmtFreq`, `fmtBounds`, `fmtUptime`) -/

/-- `fmtFreq(khz)` from the source:
`if(typeof khz !== 'number' || khz<=0) return '— MHz';
 const mhz = khz/1000;
 return (mhz>=1000) ? (mhz/1000).toFixed(2)+' GHz' : Math.round(mhz)+' MHz';` -/
def fmtFreq (khz : Option ℚ) : String :=
  match khz with
  | none => "— MHz"
  | some k =>
    if k ≤ 0 then "— MHz"
    else
      if k / 1000 ≥ 1000 then toFixed2 (k / 1000 / 1000) ++ " GHz"
      else intStr (jsRound (k / 1000)) ++ " MHz"

/-- `fmtBounds(min_khz, max_khz)` from the source:
`function f(k){ const s = fmtFreq(k); return s.replace('— ',''); }
 return f(min_khz)+' / '+f(max_khz);` -/
def fmtBounds (min_khz max_khz : Option ℚ) : String :=
  jsReplaceFirst (fmtFreq min_khz) "— " "" ++ " / " ++ jsReplaceFirst (fmtFreq max_khz) "— " ""

/-- `fmtUptime(secs)` from the source:
`if(typeof secs !== 'number' || !(secs>=0)) return '—';
 const d=Math.floor(secs/86400); secs-=d*86400; const h=Math.floor(secs/3600);
 secs-=h*3600; const m=Math.floor(secs/60); const s=Math.floor(secs-m*60);
 return (d>0? d+'d ':'')+String(h).padStart(2,'0')+':'+String(m).padStart(2,'0')
   +':'+String(s).padStart(2,'0');`
(`!(secs>=0)` on a genuine number is exactly `secs < 0`). -/
def fmtUptime (secs : Option ℚ) : String :=
  match secs with
  | none => "—"
  | some q =>
    if q < 0 then "—"
    else
      let d := ⌊q / 86400⌋
      let q1 := q - d * 86400
      let h := ⌊q1 / 3600⌋
      let q2 := q1 - h * 3600
      let m := ⌊q2 / 60⌋
      let s := ⌊q2 - m * 60⌋
      (if d > 0 then intStr d ++ "d " else "") ++
        pad2 (intStr h) ++ ":" ++ pad2 (intStr m) ++ ":" ++ pad2 (intStr s)

/-! ### The meta cache and the full-snapshot merge (`meta`, `setMetaFull`) -/

/-- The `load` object of a snapshot: `{1m, 5m, 15m}`; each entry may be any
JSON value, numeric ones modelled as `some`. -/
structure LoadAvg where
  one_m : Option ℚ
  five_m : Option ℚ
  fifteen_m : Option ℚ
deriving DecidableEq

/-- The mutable cache
`const meta = { load:null, governor:null, min:null, max:null, up:null, freq:null, temp:null };`.
`none` is the initial `null`. -/
structure MetaCache where
  load : Option LoadAvg
  governor : Option String
  min : Option ℚ
  max : Option ℚ
  up : Option ℚ
  freq : Option ℚ
  temp : Option ℚ
deriving DecidableEq

/-- A `/api/sysinfo` JSON body as far as `setMetaFull` reads it.  For the
scalar fields the code tests `x != null`, which is true exactly when the
field is present and not `null`, so `none` collapses "absent" and "null".
For `load` the code tests truthiness (`j.load || meta.load`); since `load`
is a JSON object when present, and every object is truthy, `some` again
means "present and non-null". -/
structure FullUpdate where
  load : Option LoadAvg
  governor : Option String
  freq_min_khz : Option ℚ
  freq_max_khz : Option ℚ
  uptime_seconds : Option ℚ
  freq_khz : Option ℚ
  temp_c : Option ℚ
deriving DecidableEq

/-- The cache-merge part of `setMetaFull(j)`:
`meta.load = j.load || meta.load;
 meta.governor = (j.governor!=null)? j.governor : meta.governor;` … and so on
for `min`, `max`, `up`, `freq`, `temp`.  The subsequent DOM re-rendering
reads only the merged cache and is modelled separately. -/
def setMetaFull (j : FullUpdate) (meta : MetaCache) : MetaCache where
  load := match j.load with | some v => some v | none => meta.load
  governor := match j.governor with | some v => some v | none => meta.governor
  min := match j.freq_min_khz with | some v => some v | none => meta.min
  max := match j.freq_max_khz with | some v => some v | none => meta.max
  up := match j.uptime_seconds with | some v => some v | none => meta.up
  freq := match j.freq_khz with | some v => some v | none => meta.freq
  temp := match j.temp_c with | some v => some v | none => meta.temp

/-- A sequence of full-snapshot polls applied in arrival order. -/
def applyFullList (us : List FullUpdate) (meta : MetaCache) : MetaCache :=
  us.foldl (fun acc u => setMetaFull u acc) meta

/-! ### The frequency/temperature display and the SSE fast path -/

/-- The DOM state written by `setFreqTemp`: the `cpuFreq` text, whether the
`rowTemp` row is shown (`style.display` not `'none'`), and the `cpuTemp`
text. -/
structure FreqTempDisplay where
  cpuFreqText : String
  rowTempVisible : Bool
  cpuTempText : String
deriving DecidableEq

/-- `setFreqTemp(freq_khz, temp_c)` from the source:
`const f = qs('cpuFreq'); if(f) f.textContent = fmtFreq(freq_khz);
 const has = (typeof temp_c === 'number');
 if(rowTemp) rowTemp.style.display = has ? '' : 'none';
 if(has && tv) tv.textContent = temp_c.toFixed(1)+' °C';` -/
def setFreqTemp (freq_khz temp_c : Option ℚ) (d : FreqTempDisplay) : FreqTempDisplay where
  cpuFreqText := fmtFreq freq_khz
  rowTempVisible := temp_c.isSome
  cpuTempText :=
    match temp_c with
    | some t => toFixed1 t ++ " °C"
    | none => d.cpuTempText

/-- An SSE `/api/telemetry` message as the handler reads it.  `hasFreq`
models `'freq_khz' in j` (field present, whatever its value); `freq_khz`
is `some q` exactly when the field holds the number `q`; likewise for
temperature.  `cpu` is `some` exactly when `typeof j.cpu === 'number'`. -/
structure FastMsg where
  cpu : Option ℚ
  hasFreq : Bool
  freq_khz : Option ℚ
  hasTemp : Bool
  temp_c : Option ℚ
deriving DecidableEq

/-- The `es.onmessage` handler from `init()`:
`if(typeof j.cpu === 'number') lastCpu = j.cpu;
 if('freq_khz' in j || 'temp_c' in j) setFreqTemp(j.freq_khz, j.temp_c);`
Note that it passes the raw message fields to `setFreqTemp` and touches
neither the `meta` cache nor any cached value. -/
def sseOnMessage (j : FastMsg) (lastCpu : ℚ) (d : FreqTempDisplay) : ℚ × FreqTempDisplay :=
  let lastCpu2 := match j.cpu with | some c => c | none => lastCpu
  if j.hasFreq || j.hasTemp then (lastCpu2, setFreqTemp j.freq_khz j.temp_c d)
  else (lastCpu2, d)

/-! ### Lock-gated form state (`setEditable`, field-state helpers, lock UI) -/

/-- `setNetworkFieldState()`: the `disabled` flag written to each of the
`ip`, `subnet`, `gateway`, `dns` inputs:
`el.disabled = !unlocked || !isStatic;` where
`isStatic = modeEl.value === 'static'`. -/
def setNetworkFieldState (unlocked : Bool) (network_mode : String) : Bool :=
  !unlocked || !(network_mode == "static")

/-- `setTimeFieldState()`: the `disabled` flag written to each of the
`date`, `time` inputs: `el.disabled = !unlocked || !isManual;` where
`isManual = srcEl.value === 'manual'`. -/
def setTimeFieldState (unlocked : Bool) (time_source : String) : Bool :=
  !unlocked || !(time_source == "manual")

/-- The field `disabled` flags produced by one run of `setEditable(enabled)`:
every `.need-unlock` element and the apply button get `disabled = !enabled`,
then the two dependent-field helpers are re-run with the new lock state. -/
structure FieldStates where
  needUnlockDisabled : Bool
  netFieldsDisabled : Bool
  timeFieldsDisabled : Bool
deriving DecidableEq

/-- `setEditable(enabled)` from the source. -/
def setEditable (enabled : Bool) (network_mode time_source : String) : FieldStates where
  needUnlockDisabled := !enabled
  netFieldsDisabled := setNetworkFieldState enabled network_mode
  timeFieldsDisabled := setTimeFieldState enabled time_source

/-- A `/auth/unlock` response: `httpOk` is `r.ok` (HTTP 2xx), `ok` is the
truthiness of `j.ok`, `error` is `j.error` (`none` = absent). -/
structure UnlockResp where
  httpOk : Bool
  ok : Bool
  error : Option String
deriving DecidableEq

/-- One `confirmUnlock` click inside `unlockFlow`, given the response of the
unlock request.  Returns the lock state after `initLockUI` reacts to the
promise (`if(ok){ unlocked = true; refresh(); }`) and the inline
`unlockErr` text:
`if(r.ok && j.ok){ done(true); } else{ err.textContent = j.error || 'Unlock failed'; }`
On failure the promise stays pending, `refresh()` is not re-run, and the
lock state is untouched. -/
def confirmUnlockStep (r : UnlockResp) (unlocked : Bool) : Bool × String :=
  if r.httpOk && r.ok then (true, "")
  else (unlocked, jsStrOrDefault r.error "Unlock failed")

/-- Outcome of an awaited `fetch`: `resolved` for any HTTP response (the
promise fulfils whatever the status code), `rejected` for a network-level
failure (the promise rejects and the `await` throws). -/
inductive FetchOutcome where
  | resolved (httpOk : Bool)
  | rejected
deriving DecidableEq

/-- The `unlockBtn` click handler branch taken while unlocked:
`if(unlocked){ await lockNow(); unlocked = false; refresh(); }`
`lockNow` is `await fetch('/auth/lock',{method:'POST'})` and the handler has
no `try`/`catch`, so a rejected fetch aborts the handler before
`unlocked = false` runs; an HTTP error response is simply ignored.  Returns
the resulting lock state and the message surfaced to the UI (none in either
case). -/
def lockClickStep (o : FetchOutcome) (unlocked : Bool) : Bool × Option String :=
  match o with
  | .resolved _ => (false, none)
  | .rejected => (unlocked, none)

/-! ### Configuration submit (`applyConfig`) -/

/-- The parsed `/submit-data` response body as `applyConfig` reads it
(`j.error`, `j.message`, truthiness of `j.requires_root`).  A body that
fails to parse yields the empty object via `.catch(()=>({}))`, i.e. all
fields absent. -/
structure SubmitBody where
  error : Option String
  message : Option String
  requires_root : Bool
deriving DecidableEq

/-- A `/submit-data` response: `httpOk` is `r.ok`, `status` is `r.status`. -/
structure SubmitResp where
  httpOk : Bool
  status : Nat
  body : SubmitBody
deriving DecidableEq

/-- The `msg` text produced by `applyConfig` for a response.  Source:
on `r.ok`, `msg.textContent = j.message || 'Saved.'`; otherwise
`const text = (j && (j.error || j.message)) || "HTTP " + r.status` (template
literal in the source), then `msg.textContent = text`, then
`if(r.status === 403)` append `' (Unlock to Edit first)'`, then
`if(j && j.requires_root)` append `' (Run as root to apply system settings)'`.
Here `j` is always an object (see `SubmitBody`), hence truthy. -/
def applyConfigMsg (r : SubmitResp) : String :=
  if r.httpOk then jsStrOrDefault r.body.message "Saved."
  else
    let text := jsStrOrDefault (jsOrStr r.body.error r.body.message) ("HTTP " ++ natStr r.status)
    let text1 := if r.status == 403 then text ++ " (Unlock to Edit first)" else text
    if r.body.requires_root then text1 ++ " (Run as root to apply system settings)" else text1

/-! ### Display clock offset (`syncClockFromServer` and the poll guard) -/

/-- `syncClockFromServer(iso)`:
`if(!iso) return;
 const serverMs = new Date(iso).getTime();
 if(!Number.isNaN(serverMs)){ __devTimeOffsetMs = serverMs - Date.now(); … }`
`parseDate` abstracts `new Date(iso).getTime()`; `none` is `NaN`.  Returns
the new `__devTimeOffsetMs`. -/
def syncClockFromServer (parseDate : String → Option ℤ) (now offset : ℤ)
    (iso : Option String) : ℤ :=
  match iso with
  | none => offset
  | some s =>
    if s == "" then offset
    else
      match parseDate s with
      | none => offset
      | some serverMs => serverMs - now

/-- The clock part of one `refresh()` cycle:
`if(j.server_time) syncClockFromServer(j.server_time);`
(`server_time` is an ISO string when present; the empty string is falsy and
skips the call). -/
def refreshClockStep (parseDate : String → Option ℤ) (now offset : ℤ)
    (server_time : Option String) : ℤ :=
  match server_time with
  | none => offset
  | some s => if s == "" then offset else syncClockFromServer parseDate now offset (some s)

/-- `updateGeneralClockTick()` displays `new Date(Date.now() + __devTimeOffsetMs)`;
the displayed instant is `now + offset`. -/
def generalClockTick (now offset : ℤ) : ℤ := now + offset

/-! ### Arithmetic helper lemmas -/

/-- Floor of a rational divided by a positive integer is floor-then-divide. -/
theorem floor_div_pos (q : ℚ) (n : ℤ) (hn : 0 < n) : ⌊q / (n:ℚ)⌋ = ⌊q⌋ / n := by
  refine eq_of_forall_le_iff (fun z => ?_)
  rw [Int.le_floor, le_div_iff₀ (by exact_mod_cast hn), Int.le_ediv_iff_mul_le hn, Int.le_floor,
    Int.cast_mul]

/-- Floor of a rational minus an integer multiple. -/
theorem floor_sub_intMul (q : ℚ) (d c : ℤ) : ⌊q - (d:ℚ) * (c:ℚ)⌋ = ⌊q⌋ - d * c := by
  have h : ((d:ℚ) * (c:ℚ)) = ((d * c : ℤ) : ℚ) := by push_cast; ring
  rw [h, Int.floor_sub_int]

/-- The floor of the running remainder `q - floor(q / c) * c` is `⌊q⌋ % c`. -/
theorem floor_rem (q : ℚ) (c : ℤ) (hc : 0 < c) :
    ⌊q - (⌊q / (c:ℚ)⌋ : ℚ) * (c:ℚ)⌋ = ⌊q⌋ % c := by
  rw [floor_sub_intMul, floor_div_pos q c hc, Int.emod_def]
  ring

/-! ### Character lemmas: decimal renderings never contain the em dash -/

theorem digitChar_ne_emdash (n : Nat) (h : n < 10) : digitChar n ≠ '—' := by
  interval_cases n <;> decide

theorem emdash_not_mem_natDigitsAux (fuel n : Nat) (acc : List Char)
    (hacc : '—' ∉ acc) : '—' ∉ natDigitsAux fuel n acc := by
  induction fuel generalizing n acc with
  | zero => simpa [natDigitsAux] using hacc
  | succ fuel ih =>
    rw [natDigitsAux]
    split
    · next h =>
      intro hmem
      rcases List.mem_cons.mp hmem with h1 | h1
      · exact digitChar_ne_emdash n h h1.symm
      · exact hacc h1
    · next h =>
      refine ih (n / 10) _ ?_
      intro hmem
      rcases List.mem_cons.mp hmem with h1 | h1
      · exact digitChar_ne_emdash (n % 10) (Nat.mod_lt _ (by norm_num)) h1.symm
      · exact hacc h1

theorem emdash_not_mem_natStr (n : Nat) : '—' ∉ (natStr n).data :=
  emdash_not_mem_natDigitsAux (n+1) n [] (by simp)

theorem emdash_not_mem_intStr (i : ℤ) : '—' ∉ (intStr i).data := by
  unfold intStr
  split
  · intro h
    rcases List.mem_append.mp h with h1 | h1
    · simp at h1
    · exact emdash_not_mem_natStr _ h1
  · exact emdash_not_mem_natStr _

theorem emdash_not_mem_pad2 (s : String) (hs : '—' ∉ s.data) : '—' ∉ (pad2 s).data := by
  unfold pad2
  split
  · intro h
    rcases List.mem_append.mp h with h1 | h1
    · simp at h1
    · exact hs h1
  · exact hs

theorem emdash_not_mem_toFixed2 (q : ℚ) : '—' ∉ (toFixed2 q).data := by
  unfold toFixed2
  intro h
  simp only [String.data_append] at h
  rcases List.mem_append.mp h with h1 | h1
  · rcases List.mem_append.mp h1 with h2 | h2
    · rcases List.mem_append.mp h2 with h3 | h3
      · split at h3 <;> simp at h3
      · exact emdash_not_mem_intStr _ h3
    · simp at h2
  · exact emdash_not_mem_pad2 _ (emdash_not_mem_intStr _) h1

/-- A first-occurrence replacement whose pattern head never occurs in the
subject leaves the subject unchanged. -/
theorem listReplaceFirst_of_not_mem (p : Char) (pt rep l : List Char)
    (h : p ∉ l) : listReplaceFirst (p :: pt) rep l = l := by
  induction l with
  | nil => rfl
  | cons c rest ih =>
    rw [listReplaceFirst]
    have hne : p ≠ c := fun he => h (he ▸ List.mem_cons_self c rest)
    have hnp : ¬ (p :: pt).isPrefixOf (c :: rest) := by
      simp [List.isPrefixOf_cons₂]
      intro hpc
      exact absurd hpc hne
    rw [if_neg hnp, ih (fun hm => h (List.mem_cons_of_mem c hm))]

/-- A non-placeholder `fmtFreq` result contains no em dash. -/
theorem emdash_not_mem_fmtFreq_pos (k : Option ℚ) (hne : fmtFreq k ≠ "— MHz") :
    '—' ∉ (fmtFreq k).data := by
  match k with
  | none => exact absurd rfl hne
  | some q =>
    rw [fmtFreq]
    split
    · exact absurd (by rw [fmtFreq]; simp_all) hne
    · split
      · intro h
        rw [String.data_append] at h
        rcases List.mem_append.mp h with h1 | h1
        · exact emdash_not_mem_toFixed2 _ h1
        · revert h1
          decide
      · intro h
        rw [String.data_append] at h
        rcases List.mem_append.mp h with h1 | h1
        · exact emdash_not_mem_intStr _ h1
        · revert h1
          decide

/-- The `s.replace('— ','')` inside `fmtBounds` strips exactly the
placeholder dash: it turns `"— MHz"` into `"MHz"` and leaves every other
`fmtFreq` result unchanged. -/
theorem jsReplaceFirst_fmtFreq (k : Option ℚ) :
    jsReplaceFirst (fmtFreq k) "— " "" =
      if fmtFreq k = "— MHz" then "MHz" else fmtFreq k := by
  by_cases h : fmtFreq k = "— MHz"
  · rw [h, if_pos rfl]
    decide
  · rw [if_neg h]
    have hmem := emdash_not_mem_fmtFreq_pos k h
    rw [jsReplaceFirst]
    rw [show ("— ").data = '—' :: " ".data from rfl]
    rw [listReplaceFirst_of_not_mem _ _ _ _ hmem]

/-! ### Spec-side formulations (from the specification text, for refinement) -/

/-- The spec's frequency rule, stated directly over the kHz input:
"value ≤ 0 or non-numeric → '— MHz'; else convert kHz→MHz; if MHz ≥ 1000,
display as GHz with 2 decimal places; else display rounded MHz".
`MHz ≥ 1000` is `k ≥ 1000000` in kHz and the GHz value is `k / 1000000`. -/
def freqRuleSpec (k : ℚ) : String :=
  if k ≤ 0 then "— MHz"
  else if 1000000 ≤ k then toFixed2 (k / 1000000) ++ " GHz"
  else intStr (jsRound (k / 1000)) ++ " MHz"

/-- The spec's uptime rendering over the whole-second count `n`:
days `n / 86400`, hours `n % 86400 / 3600`, minutes `n % 3600 / 60`,
seconds `n % 60`, rendered `D"d "HH:MM:SS` with the day segment omitted
when zero. -/
def uptimeRenderSpec (n : ℤ) : String :=
  (if n / 86400 > 0 then intStr (n / 86400) ++ "d " else "") ++
    pad2 (intStr (n % 86400 / 3600)) ++ ":" ++ pad2 (intStr (n % 3600 / 60)) ++ ":" ++
    pad2 (intStr (n % 60))

/-- `pat` occurs somewhere inside `s`. -/
def strContains (s pat : String) : Prop := pat.data <:+: s.data

/-- Fold-invariance helper: a cache projection untouched by single updates
whose source field is absent stays untouched across any sequence of them. -/
theorem applyFullList_proj_invariant {α β : Type} (p : MetaCache → α) (g : FullUpdate → Option β)
    (hstep : ∀ u meta, g u = none → p (setMetaFull u meta) = p meta) :
    ∀ (us : List FullUpdate) (meta : MetaCache),
      (∀ u ∈ us, g u = none) → p (applyFullList us meta) = p meta := by
  intro us
  induction us with
  | nil => intro meta _; rfl
  | cons u rest ih =>
    intro meta hall
    have h1 : g u = none := hall u (List.mem_cons_self u rest)
    have h2 : ∀ v ∈ rest, g v = none := fun v hv => hall v (List.mem_cons_of_mem u hv)
    show p (applyFullList rest (setMetaFull u meta)) = p meta
    rw [ih (setMetaFull u meta) h2, hstep u meta h1]

/-! ### Claim theorems -/

/-- C1: for every full-snapshot update record and every cache state,
`setMetaFull` overwrites exactly the cache fields that are present and
non-null in the update and leaves every field absent or null in the update
unchanged; consequently, over any sequence of full-snapshot updates, a
field absent from every update in the sequence never changes in the
cache. -/
theorem setMetaFull_merge_preserve :
    ∀ (j : FullUpdate) (meta : MetaCache) (us : List FullUpdate),
      (∀ v, j.load = some v → (setMetaFull j meta).load = some v) ∧
      (∀ v, j.governor = some v → (setMetaFull j meta).governor = some v) ∧
      (∀ v, j.freq_min_khz = some v → (setMetaFull j meta).min = some v) ∧
      (∀ v, j.freq_max_khz = some v → (setMetaFull j meta).max = some v) ∧
      (∀ v, j.uptime_seconds = some v → (setMetaFull j meta).up = some v) ∧
      (∀ v, j.freq_khz = some v → (setMetaFull j meta).freq = some v) ∧
      (∀ v, j.temp_c = some v → (setMetaFull j meta).temp = some v) ∧
      (j.load = none → (setMetaFull j meta).load = meta.load) ∧
      (j.governor = none → (setMetaFull j meta).governor = meta.governor) ∧
      (j.freq_min_khz = none → (setMetaFull j meta).min = meta.min) ∧
      (j.freq_max_khz = none → (setMetaFull j meta).max = meta.max) ∧
      (j.uptime_seconds = none → (setMetaFull j meta).up = meta.up) ∧
      (j.freq_khz = none → (setMetaFull j meta).freq = meta.freq) ∧
      (j.temp_c = none → (setMetaFull j meta).temp = meta.temp) ∧
      ((∀ u ∈ us, u.load = none) → (applyFullList us meta).load = meta.load) ∧
      ((∀ u ∈ us, u.governor = none) → (applyFullList us meta).governor = meta.governor) ∧
      ((∀ u ∈ us, u.freq_min_khz = none) → (applyFullList us meta).min = meta.min) ∧
      ((∀ u ∈ us, u.freq_max_khz = none) → (applyFullList us meta).max = meta.max) ∧
      ((∀ u ∈ us, u.uptime_seconds = none) → (applyFullList us meta).up = meta.up) ∧
      ((∀ u ∈ us, u.freq_khz = none) → (applyFullList us meta).freq = meta.freq) ∧
      ((∀ u ∈ us, u.temp_c = none) → (applyFullList us meta).temp = meta.temp) := by
  intro j meta us
  exact ⟨fun v h => by simp [setMetaFull, h],
    fun v h => by simp [setMetaFull, h],
    fun v h => by simp [setMetaFull, h],
    fun v h => by simp [setMetaFull, h],
    fun v h => by simp [setMetaFull, h],
    fun v h => by simp [setMetaFull, h],
    fun v h => by simp [setMetaFull, h],
    fun h => by simp [setMetaFull, h],
    fun h => by simp [setMetaFull, h],
    fun h => by simp [setMetaFull, h],
    fun h => by simp [setMetaFull, h],
    fun h => by simp [setMetaFull, h],
    fun h => by simp [setMetaFull, h],
    fun h => by simp [setMetaFull, h],
    applyFullList_proj_invariant (fun m => m.load) (fun u => u.load)
      (fun u m h => by simp [setMetaFull, h]) us meta,
    applyFullList_proj_invariant (fun m => m.governor) (fun u => u.governor)
      (fun u m h => by simp [setMetaFull, h]) us meta,
    applyFullList_proj_invariant (fun m => m.min) (fun u => u.freq_min_khz)
      (fun u m h => by simp [setMetaFull, h]) us meta,
    applyFullList_proj_invariant (fun m => m.max) (fun u => u.freq_max_khz)
      (fun u m h => by simp [setMetaFull, h]) us meta,
    applyFullList_proj_invariant (fun m => m.up) (fun u => u.uptime_seconds)
      (fun u m h => by simp [setMetaFull, h]) us meta,
    applyFullList_proj_invariant (fun m => m.freq) (fun u => u.freq_khz)
      (fun u m h => by simp [setMetaFull, h]) us meta,
    applyFullList_proj_invariant (fun m => m.temp) (fun u => u.temp_c)
      (fun u m h => by simp [setMetaFull, h]) us meta⟩

/-- Witness for C1 at a concrete fast-style partial update (only `freq_khz`
present) against a populated cache. -/
theorem setMetaFull_merge_preserve_wit :
    (setMetaFull ⟨none, none, none, none, none, some 500, none⟩
      ⟨none, some "performance", none, none, none, some 300, some 41⟩).freq = some 500 ∧
    (setMetaFull ⟨none, none, none, none, none, some 500, none⟩
      ⟨none, some "performance", none, none, none, some 300, some 41⟩).temp = some 41 ∧
    (applyFullList [⟨none, none, none, none, none, some 500, none⟩]
      ⟨none, some "performance", none, none, none, some 300, some 41⟩).governor
        = some "performance" := by
  obtain ⟨h1, h2, h3, h4, h5, h6, h7, a1, a2, a3, a4, a5, a6, a7, s1, s2, s3, s4, s5, s6, s7⟩ :=
    setMetaFull_merge_preserve ⟨none, none, none, none, none, some 500, none⟩
      ⟨none, some "performance", none, none, none, some 300, some 41⟩
      [⟨none, none, none, none, none, some 500, none⟩]
  refine ⟨h6 500 rfl, a7 rfl, s2 ?_⟩
  intro u hu
  rcases List.mem_singleton.mp hu with rfl
  rfl

/-- C2 (code divergence): the SSE fast-path handler passes the raw message
fields to `setFreqTemp` without consulting the cache, so a fast update
carrying only `freq_khz` hides the temperature row even though a numeric
temperature was previously displayed, and a fast update carrying only
`temp_c` resets the frequency display to the placeholder. -/
theorem sse_fast_update_hides_temp :
    (sseOnMessage ⟨none, true, some 800000, false, none⟩ 0
      ⟨"800 MHz", true, "42.0 °C"⟩).2.rowTempVisible = false ∧
    (⟨"800 MHz", true, "42.0 °C"⟩ : FreqTempDisplay).rowTempVisible = true ∧
    (sseOnMessage ⟨none, true, some 800000, false, none⟩ 0
      ⟨"800 MHz", true, "42.0 °C"⟩).2.cpuTempText = "42.0 °C" ∧
    (sseOnMessage ⟨none, false, none, true, some 42⟩ 0
      ⟨"800 MHz", true, "42.0 °C"⟩).2.cpuFreqText = "— MHz" := by
  exact ⟨rfl, rfl, rfl, rfl⟩

/-- C3: a dependent field is enabled (its `disabled` flag is `false`) iff
the lock state is unlocked and the controlling selector holds its
activating value (`"static"` for the network fields, `"manual"` for the
date/time fields); when locked everything dependent is disabled regardless
of the selector, and unlocked plus `network_mode = "dhcp"` leaves the
network fields disabled. -/
theorem dependent_field_enablement :
    ∀ (unlocked : Bool) (network_mode time_source : String),
      (setNetworkFieldState unlocked network_mode = false ↔
        unlocked = true ∧ network_mode = "static") ∧
      (setTimeFieldState unlocked time_source = false ↔
        unlocked = true ∧ time_source = "manual") ∧
      setNetworkFieldState false network_mode = true ∧
      setTimeFieldState false time_source = true ∧
      setNetworkFieldState true "dhcp" = true ∧
      (setEditable false network_mode time_source).netFieldsDisabled = true ∧
      (setEditable false network_mode time_source).timeFieldsDisabled = true := by
  intro u nm ts
  refine ⟨?_, ?_, ?_, ?_, by decide, ?_, ?_⟩ <;>
    cases u <;>
      simp [setNetworkFieldState, setTimeFieldState, setEditable, beq_iff_eq]

/-- Witness for C3: unlocked with `network_mode = "static"` enables the
network fields; locked keeps them disabled. -/
theorem dependent_field_enablement_wit :
    setNetworkFieldState true "static" = false ∧
    setNetworkFieldState false "static" = true ∧
    setTimeFieldState true "manual" = false := by
  refine ⟨?_, ?_, ?_⟩
  · exact (dependent_field_enablement true "static" "manual").1.mpr (by decide)
  · exact (dependent_field_enablement false "static" "manual").2.2.1
  · exact (dependent_field_enablement true "static" "manual").2.1.mpr (by decide)

/-- C4 (counterexample): the claim's example `formatFrequency(900) = "900 MHz"`
fails on the code: 900 kHz is 0.9 MHz, which `Math.round` renders as
`"1 MHz"`. -/
theorem fmtFreq_900_counterexample :
    fmtFreq (some 900) = "1 MHz" ∧ fmtFreq (some 900) ≠ "900 MHz" := by
  have h : ¬ ((900:ℚ) ≤ 0) := by norm_num
  have h2 : ¬ ((900:ℚ) / 1000 ≥ 1000) := by norm_num
  have h3 : jsRound ((900:ℚ)/1000) = 1 := by
    rw [jsRound]
    norm_num
  have he : fmtFreq (some 900) = "1 MHz" := by
    simp only [fmtFreq, if_neg h, if_neg h2, h3]
    decide
  exact ⟨he, by rw [he]; decide⟩

/-- C4 (amended): the frequency formatter returns `"— MHz"` for non-numeric
or non-positive input, converts kHz to MHz, displays GHz with two decimals
when MHz ≥ 1000 (i.e. kHz ≥ 1000000) and the rounded MHz value otherwise;
`formatFrequency(0) = formatFrequency(-5) = "— MHz"`,
`formatFrequency(900000) = "900 MHz"` (the spec's `"900 MHz"` example needs
input 900000, not 900, which gives `"1 MHz"`), and
`formatFrequency(1500000) = "1.50 GHz"`. -/
theorem fmtFreq_rule_amended :
    (∀ k : ℚ, fmtFreq (some k) = freqRuleSpec k) ∧
    fmtFreq none = "— MHz" ∧
    fmtFreq (some 0) = "— MHz" ∧
    fmtFreq (some (-5)) = "— MHz" ∧
    fmtFreq (some 900000) = "900 MHz" ∧
    fmtFreq (some 900) = "1 MHz" ∧
    fmtFreq (some 1500000) = "1.50 GHz" := by
  refine ⟨?_, rfl, by norm_num [fmtFreq], by norm_num [fmtFreq], ?_, ?_, ?_⟩
  · intro k
    simp only [fmtFreq, freqRuleSpec]
    by_cases h0 : k ≤ 0
    · simp [h0]
    · rw [if_neg h0, if_neg h0]
      have hiff : (k / 1000 ≥ 1000) ↔ (1000000 ≤ k) := by
        rw [ge_iff_le, le_div_iff₀ (by norm_num)]
        norm_num
      by_cases h1 : 1000000 ≤ k
      · rw [if_pos (hiff.mpr h1), if_pos h1, div_div]
        norm_num
      · rw [if_neg (fun hh => h1 (hiff.mp hh)), if_neg h1]
  · have h : ¬ ((900000:ℚ) ≤ 0) := by norm_num
    have h2 : ¬ ((900000:ℚ) / 1000 ≥ 1000) := by norm_num
    have h3 : jsRound ((900000:ℚ)/1000) = 900 := by
      rw [jsRound]
      norm_num
    simp only [fmtFreq, if_neg h, if_neg h2, h3]
    decide
  · have h : ¬ ((900:ℚ) ≤ 0) := by norm_num
    have h2 : ¬ ((900:ℚ) / 1000 ≥ 1000) := by norm_num
    have h3 : jsRound ((900:ℚ)/1000) = 1 := by
      rw [jsRound]
      norm_num
    simp only [fmtFreq, if_neg h, if_neg h2, h3]
    decide
  · have h2 : ((1500000:ℚ) / 1000 ≥ 1000) := by norm_num
    simp only [fmtFreq, if_neg (by norm_num : ¬ ((1500000:ℚ) ≤ 0)), if_pos h2]
    have h4 : (1500000:ℚ)/1000/1000 = 3/2 := by norm_num
    rw [h4, toFixed2]
    have h5 : ¬ ((3:ℚ)/2 < 0) := by norm_num
    have h6 : ⌊|(3:ℚ)/2| * 100 + 1/2⌋ = 150 := by
      rw [show |(3:ℚ)/2| = 3/2 by norm_num]
      norm_num
    simp only [h5, if_false, h6]
    decide

/-- C5: a failed unlock attempt (non-2xx or `ok:false`) leaves the lock
state unchanged (in particular Locked stays Locked), surfaces the response
error text — or the default `"Unlock failed"` when absent or empty — inline
in the dialog, and keeps every unlock-gated field disabled; the transition
to Unlocked happens only on a 2xx response with `ok:true`. -/
theorem unlock_failure_stays_locked :
    ∀ (r : UnlockResp) (unlocked : Bool) (network_mode time_source : String),
      (r.httpOk = false ∨ r.ok = false →
        (confirmUnlockStep r unlocked).1 = unlocked ∧
        (∀ e, r.error = some e → e ≠ "" → (confirmUnlockStep r unlocked).2 = e) ∧
        (r.error = none → (confirmUnlockStep r unlocked).2 = "Unlock failed") ∧
        (r.error = some "" → (confirmUnlockStep r unlocked).2 = "Unlock failed")) ∧
      (unlocked = false → r.httpOk = false ∨ r.ok = false →
        (setEditable (confirmUnlockStep r unlocked).1 network_mode time_source).needUnlockDisabled
            = true ∧
        (setEditable (confirmUnlockStep r unlocked).1 network_mode time_source).netFieldsDisabled
            = true ∧
        (setEditable (confirmUnlockStep r unlocked).1 network_mode time_source).timeFieldsDisabled
            = true) ∧
      ((confirmUnlockStep r unlocked).1 = true → unlocked = false →
        r.httpOk = true ∧ r.ok = true) := by
  intro r unlocked nm ts
  have hfail : r.httpOk = false ∨ r.ok = false → (r.httpOk && r.ok) = false := by
    intro h
    rcases h with h | h <;> simp [h]
  refine ⟨?_, ?_, ?_⟩
  · intro h
    rw [confirmUnlockStep, if_neg (by simp [hfail h])]
    refine ⟨rfl, ?_, ?_, ?_⟩
    · intro e he hne
      simp [jsStrOrDefault, he, hne]
    · intro he
      simp [jsStrOrDefault, he]
    · intro he
      simp [jsStrOrDefault, he]
  · intro hu h
    rw [confirmUnlockStep, if_neg (by simp [hfail h])]
    simp [setEditable, setNetworkFieldState, setTimeFieldState, hu]
  · intro h1 h2
    by_cases hc : r.httpOk = true ∧ r.ok = true
    · exact hc
    · exfalso
      have hf : (r.httpOk && r.ok) = false := by
        cases hb : r.httpOk <;> cases hb2 : r.ok <;> simp_all
      rw [confirmUnlockStep, if_neg (by simp [hf])] at h1
      rw [h2] at h1
      exact Bool.false_ne_true h1

/-- Witness for C5: the spec's `{ok:false, error:"bad password"}` response
on a 2xx status, against the Locked state. -/
theorem unlock_failure_stays_locked_wit :
    (confirmUnlockStep ⟨true, false, some "bad password"⟩ false).1 = false ∧
    (confirmUnlockStep ⟨true, false, some "bad password"⟩ false).2 = "bad password" ∧
    (setEditable (confirmUnlockStep ⟨true, false, some "bad password"⟩ false).1
      "static" "manual").needUnlockDisabled = true := by
  obtain ⟨ha, hb, hc⟩ :=
    unlock_failure_stays_locked ⟨true, false, some "bad password"⟩ false "static" "manual"
  exact ⟨(ha (Or.inr rfl)).1, (ha (Or.inr rfl)).2.1 "bad password" rfl (by decide),
    (hb rfl (Or.inr rfl)).1⟩

/-- C6 (counterexample): when the awaited `/auth/lock` fetch rejects at the
network level, the click handler aborts before `unlocked = false` runs, so
the state stays Unlocked — the transition to Locked does not "always
complete locally" as the claim states. -/
theorem lock_click_rejected_stays_unlocked :
    (lockClickStep .rejected true).1 = true ∧ (lockClickStep .rejected true).2 = none := ⟨rfl, rfl⟩

/-- C6 (amended): the lock action completes locally for every settled lock
request regardless of HTTP status — the response is ignored, the state
becomes Locked, every unlock-gated field is disabled and dependent-field
recomputation is re-run, and no failure is surfaced — but a lock request
that fails at the network level (a rejected fetch) aborts the handler
before the local disabling, leaving the state Unlocked; that failure is
not surfaced either. -/
theorem lock_click_amended :
    ∀ (httpOk : Bool) (network_mode time_source : String),
      lockClickStep (.resolved httpOk) true = (false, none) ∧
      (setEditable (lockClickStep (.resolved httpOk) true).1 network_mode
        time_source).needUnlockDisabled = true ∧
      (setEditable (lockClickStep (.resolved httpOk) true).1 network_mode
        time_source).netFieldsDisabled = true ∧
      (setEditable (lockClickStep (.resolved httpOk) true).1 network_mode
        time_source).timeFieldsDisabled = true ∧
      lockClickStep .rejected true = (true, none) := by
  intro b nm ts
  exact ⟨rfl, rfl, by simp [setEditable, setNetworkFieldState, lockClickStep],
    by simp [setEditable, setTimeFieldState, lockClickStep], rfl⟩

/-- A string contains its appended suffix. -/
theorem strContains_suffix (a b : String) : strContains (a ++ b) b := by
  rw [strContains, String.data_append]
  exact (List.suffix_append _ _).isInfix

/-- A string contains its appended first part. -/
theorem strContains_left (a b : String) : strContains (a ++ b) a := by
  rw [strContains, String.data_append]
  exact (List.prefix_append _ _).isInfix

/-- A three-part concatenation contains its middle part. -/
theorem strContains_mid (a b c : String) : strContains (a ++ b ++ c) b := by
  rw [strContains, String.data_append, String.data_append]
  exact ⟨a.data, c.data, by simp⟩

/-- A three-part concatenation contains its first part. -/
theorem strContains_first (a b c : String) : strContains (a ++ b ++ c) a := by
  rw [strContains, String.data_append, String.data_append]
  exact ⟨[], b.data ++ c.data, by simp⟩

/-- C7: the configuration-submit message taxonomy.  On a 2xx response the
surfaced message is the server-supplied message or the default `"Saved."`;
on failure, a 403 status yields a message containing both the surfaced
server error text and the unlock hint, a `requires_root:true` body yields
the distinct elevated-privileges hint, and any other failure yields the raw
error/message text or the HTTP status code. -/
theorem applyConfig_message_taxonomy :
    ∀ (r : SubmitResp),
      (r.httpOk = true →
        (∀ m, r.body.message = some m → m ≠ "" → applyConfigMsg r = m) ∧
        (r.body.message = none → applyConfigMsg r = "Saved.") ∧
        (r.body.message = some "" → applyConfigMsg r = "Saved.")) ∧
      (r.httpOk = false → r.status = 403 →
        strContains (applyConfigMsg r) " (Unlock to Edit first)" ∧
        (∀ e, r.body.error = some e → e ≠ "" → strContains (applyConfigMsg r) e)) ∧
      (r.httpOk = false → r.body.requires_root = true →
        strContains (applyConfigMsg r) " (Run as root to apply system settings)") ∧
      (r.httpOk = false → r.status ≠ 403 → r.body.requires_root = false →
        (∀ e, r.body.error = some e → e ≠ "" → applyConfigMsg r = e) ∧
        (r.body.error = none ∨ r.body.error = some "" →
          (∀ m, r.body.message = some m → m ≠ "" → applyConfigMsg r = m)) ∧
        (r.body.error = none ∨ r.body.error = some "" →
          r.body.message = none ∨ r.body.message = some "" →
          applyConfigMsg r = "HTTP " ++ natStr r.status)) := by
  rintro ⟨hok, status, err, msg, root⟩
  refine ⟨?_, ?_, ?_, ?_⟩
  · rintro rfl
    refine ⟨?_, ?_, ?_⟩
    · rintro m rfl hm
      simp [applyConfigMsg, jsStrOrDefault, hm]
    · rintro rfl
      simp [applyConfigMsg, jsStrOrDefault]
    · rintro rfl
      simp [applyConfigMsg, jsStrOrDefault]
  · rintro rfl rfl
    constructor
    · cases root
      · have hshape : applyConfigMsg ⟨false, 403, ⟨err, msg, false⟩⟩ =
            jsStrOrDefault (jsOrStr err msg) ("HTTP " ++ natStr 403) ++
              " (Unlock to Edit first)" := by
          simp [applyConfigMsg]
        rw [hshape]
        exact strContains_suffix _ _
      · have hshape : applyConfigMsg ⟨false, 403, ⟨err, msg, true⟩⟩ =
            jsStrOrDefault (jsOrStr err msg) ("HTTP " ++ natStr 403) ++
              " (Unlock to Edit first)" ++ " (Run as root to apply system settings)" := by
          simp [applyConfigMsg]
        rw [hshape]
        exact strContains_mid _ _ _
    · rintro e rfl hne
      have htext : jsStrOrDefault (jsOrStr (some e) msg) ("HTTP " ++ natStr 403) = e := by
        simp [jsOrStr, jsTruthyStr, jsStrOrDefault, hne]
      cases root
      · have hshape : applyConfigMsg ⟨false, 403, ⟨some e, msg, false⟩⟩ =
            e ++ " (Unlock to Edit first)" := by
          simp [applyConfigMsg, htext]
        rw [hshape]
        exact strContains_left _ _
      · have hshape : applyConfigMsg ⟨false, 403, ⟨some e, msg, true⟩⟩ =
            e ++ " (Unlock to Edit first)" ++ " (Run as root to apply system settings)" := by
          simp [applyConfigMsg, htext]
        rw [hshape]
        exact strContains_first _ _ _
  · rintro rfl rfl
    by_cases h403 : (status == 403) = true
    · have hshape : applyConfigMsg ⟨false, status, ⟨err, msg, true⟩⟩ =
          jsStrOrDefault (jsOrStr err msg) ("HTTP " ++ natStr status) ++
            " (Unlock to Edit first)" ++ " (Run as root to apply system settings)" := by
        simp [applyConfigMsg, h403]
      rw [hshape]
      exact strContains_suffix _ _
    · have hshape : applyConfigMsg ⟨false, status, ⟨err, msg, true⟩⟩ =
          jsStrOrDefault (jsOrStr err msg) ("HTTP " ++ natStr status) ++
            " (Run as root to apply system settings)" := by
        simp [applyConfigMsg, h403]
      rw [hshape]
      exact strContains_suffix _ _
  · rintro rfl hst rfl
    have h403 : (status == 403) = false := beq_eq_false_iff_ne.mpr hst
    refine ⟨?_, ?_, ?_⟩
    · rintro e rfl hne
      simp [applyConfigMsg, h403, jsOrStr, jsTruthyStr, jsStrOrDefault, hne]
    · rintro herr m rfl hm
      rcases herr with rfl | rfl <;>
        simp [applyConfigMsg, h403, jsOrStr, jsTruthyStr, jsStrOrDefault, hm]
    · rintro herr hmsg
      rcases herr with rfl | rfl <;> rcases hmsg with rfl | rfl <;>
        simp [applyConfigMsg, h403, jsOrStr, jsTruthyStr, jsStrOrDefault]

/-- Witness for C7: a 403 failure with error text `"locked"` surfaces a
message containing both the error text and the unlock hint; a plain 500
failure with no body text surfaces the status code. -/
theorem applyConfig_message_taxonomy_wit :
    strContains (applyConfigMsg ⟨false, 403, ⟨some "locked", none, false⟩⟩) "locked" ∧
    strContains (applyConfigMsg ⟨false, 403, ⟨some "locked", none, false⟩⟩)
      " (Unlock to Edit first)" ∧
    applyConfigMsg ⟨false, 500, ⟨none, none, false⟩⟩ = "HTTP " ++ natStr 500 := by
  obtain ⟨w1, w2, w3, w4⟩ := applyConfig_message_taxonomy ⟨false, 403, ⟨some "locked", none, false⟩⟩
  obtain ⟨v1, v2, v3, v4⟩ := applyConfig_message_taxonomy ⟨false, 500, ⟨none, none, false⟩⟩
  exact ⟨(w2 rfl rfl).2 "locked" rfl (by decide), (w2 rfl rfl).1,
    (v4 rfl (by decide) rfl).2.2 (Or.inl rfl) (Or.inl rfl)⟩

/-- The sequential subtract-and-floor decomposition in `fmtUptime` agrees
with the spec's div/mod decomposition of the whole-second count. -/
theorem fmtUptime_eq_spec (q : ℚ) :
    fmtUptime (some q) = if q < 0 then "—" else uptimeRenderSpec ⌊q⌋ := by
  by_cases hq : q < 0
  · simp [fmtUptime, hq]
  · have h86400 : ((86400:ℚ)) = ((86400:ℤ):ℚ) := by norm_num
    have h3600 : ((3600:ℚ)) = ((3600:ℤ):ℚ) := by norm_num
    have h60 : ((60:ℚ)) = ((60:ℤ):ℚ) := by norm_num
    simp only [fmtUptime, hq, if_false]
    rw [h86400, h3600, h60]
    set r1 : ℚ := q - (⌊q / ((86400:ℤ):ℚ)⌋ : ℚ) * ((86400:ℤ):ℚ) with hr1
    set r2 : ℚ := r1 - (⌊r1 / ((3600:ℤ):ℚ)⌋ : ℚ) * ((3600:ℤ):ℚ) with hr2
    have e1 : ⌊q / ((86400:ℤ):ℚ)⌋ = ⌊q⌋ / 86400 := floor_div_pos q 86400 (by norm_num)
    have er1 : ⌊r1⌋ = ⌊q⌋ % 86400 := floor_rem q 86400 (by norm_num)
    have e2 : ⌊r1 / ((3600:ℤ):ℚ)⌋ = ⌊q⌋ % 86400 / 3600 := by
      rw [floor_div_pos r1 3600 (by norm_num), er1]
    have er2 : ⌊r2⌋ = ⌊q⌋ % 3600 := by
      rw [hr2, floor_rem r1 3600 (by norm_num), er1]
      omega
    have e3 : ⌊r2 / ((60:ℤ):ℚ)⌋ = ⌊q⌋ % 3600 / 60 := by
      rw [floor_div_pos r2 60 (by norm_num), er2]
    have e4 : ⌊r2 - (⌊r2 / ((60:ℤ):ℚ)⌋ : ℚ) * ((60:ℤ):ℚ)⌋ = ⌊q⌋ % 60 := by
      rw [floor_rem r2 60 (by norm_num), er2]
      omega
    rw [e4, e3, e2, e1, uptimeRenderSpec]

/-- C8: the uptime formatter returns `"—"` for negative or non-numeric
input; otherwise it decomposes the seconds into days/hours/minutes/seconds
and renders zero-padded `HH:MM:SS`, prefixed by the day count and `"d "`
exactly when the day count is positive; `formatUptime(90061) = "1d 01:01:01"`,
`formatUptime(61) = "00:01:01"`, `formatUptime(-1) = "—"`. -/
theorem fmtUptime_rule :
    (∀ q : ℚ, fmtUptime (some q) = if q < 0 then "—" else uptimeRenderSpec ⌊q⌋) ∧
    fmtUptime none = "—" ∧
    fmtUptime (some 90061) = "1d 01:01:01" ∧
    fmtUptime (some 61) = "00:01:01" ∧
    fmtUptime (some (-1)) = "—" := by
  refine ⟨fmtUptime_eq_spec, rfl, ?_, ?_, by norm_num [fmtUptime]⟩
  · simp only [fmtUptime]
    norm_num
    decide
  · simp only [fmtUptime]
    norm_num
    decide

/-- C9: the bounds formatter formats each bound independently with the
frequency rule, strips the placeholder dash from a bound that formatted to
the placeholder (leaving `"MHz"`), leaves any other formatted bound
unchanged, and joins the two results with the `" / "` separator. -/
theorem fmtBounds_rule :
    ∀ (min_khz max_khz : Option ℚ),
      fmtBounds min_khz max_khz =
        (if fmtFreq min_khz = "— MHz" then "MHz" else fmtFreq min_khz) ++ " / " ++
          (if fmtFreq max_khz = "— MHz" then "MHz" else fmtFreq max_khz) := by
  intro mn mx
  rw [fmtBounds, jsReplaceFirst_fmtFreq, jsReplaceFirst_fmtFreq]

/-- C10: the display-clock offset is updated only by a full-snapshot
response whose `server_time` is a present, non-empty string that parses to
a valid (non-NaN) timestamp — in which case the new offset is
`serverMs - now`; when `server_time` is absent, empty, or unparseable the
stored offset is unchanged and the clock keeps ticking from the old
offset. -/
theorem clock_offset_update_guard :
    ∀ (parseDate : String → Option ℤ) (now offset : ℤ) (server_time : Option String),
      (server_time = none → refreshClockStep parseDate now offset server_time = offset) ∧
      (server_time = some "" → refreshClockStep parseDate now offset server_time = offset) ∧
      (∀ s, server_time = some s → parseDate s = none →
        refreshClockStep parseDate now offset server_time = offset) ∧
      (∀ s ms, server_time = some s → s ≠ "" → parseDate s = some ms →
        refreshClockStep parseDate now offset server_time = ms - now) ∧
      (∀ s, server_time = some s → parseDate s = none →
        generalClockTick now (refreshClockStep parseDate now offset server_time) =
          generalClockTick now offset) := by
  intro parseDate now offset st
  refine ⟨?_, ?_, ?_, ?_, ?_⟩
  · rintro rfl
    rfl
  · rintro rfl
    rfl
  · rintro s rfl hp
    by_cases hs : s = ""
    · simp [refreshClockStep, hs]
    · simp [refreshClockStep, syncClockFromServer, hs, hp]
  · rintro s ms rfl hs hp
    simp [refreshClockStep, syncClockFromServer, hs, hp]
  · rintro s rfl hp
    by_cases hs : s = ""
    · simp [refreshClockStep, hs]
    · simp [refreshClockStep, syncClockFromServer, hs, hp]

/-- Witness for C10: an unparseable `server_time` leaves the offset at 7;
a parseable one replaces it with `serverMs - now`. -/
theorem clock_offset_update_guard_wit :
    refreshClockStep (fun _ => (none : Option ℤ)) 5 7 (some "bogus") = 7 ∧
    refreshClockStep (fun _ => some 1000) 5 7 (some "2024-01-01T00:00:00Z") = 995 := by
  constructor
  · exact (clock_offset_update_guard (fun _ => none) 5 7 (some "bogus")).2.2.1 "bogus" rfl rfl
  · have h := (clock_offset_update_guard (fun _ => some 1000) 5 7
      (some "2024-01-01T00:00:00Z")).2.2.2.1 "2024-01-01T00:00:00Z" 1000 rfl (by decide) rfl
    rw [h]
    decide
